import Mathlib

/-!
# Verification of the GemDa gemstone report pipeline

Shallow embedding of the data-cleaning, filtering, UI-state and rendering
logic of the repository's three scripts (`app.py`, `streamlit_app.py`,
`generate_report.py`), together with theorems settling the frozen claims
about the natural-language specification.

Pandas cells are modelled by `Cell` (a string, a rational number, or the
missing value NaN); a dataframe is a `List Row`.  Rational numbers stand in
for the Python floats (none of the verified properties depends on binary
floating-point rounding).  String manipulation is carried out on the
character lists underlying Lean strings, with structurally recursive
models of the Python primitives used by the scripts.
-/

/-- A pandas cell: a string value, a numeric value, or missing (NaN). -/
inductive Cell where
  | str (v : String)
  | num (v : ℚ)
  | na
deriving DecidableEq, Repr

/-- One row of the catalog CSV, with the columns the scripts touch. -/
structure Row where
  attribute_set_id : Cell
  sku : Cell
  name : Cell
  qty : Cell
  is_in_stock : Cell
  product_type : Cell
  price : Cell
  carat_weight : Cell
  weight_ratti : Cell
  gemstone : Cell
  gemstone2 : Cell
  shape : Cell
  cut : Cell
  treatment : Cell
  origin : Cell
  color : Cell
  j_colour : Cell
  dimension_type : Cell
  certification : Cell
  url_key : Cell
  image : Cell
deriving DecidableEq, Repr

/-! ## Character-list models of the Python string primitives -/

/-- Python `s.split(sep)` for a one-character separator. -/
def splitOnChar (sep : Char) : List Char → List (List Char)
  | [] => [[]]
  | c :: rest =>
      let r := splitOnChar sep rest
      if c = sep then [] :: r
      else
        match r with
        | h :: t => (c :: h) :: t
        | [] => [[c]]

/-- Python substring test `sub in s`. -/
def containsL (sub : List Char) : List Char → Bool
  | [] => sub.isEmpty
  | c :: rest => sub.isPrefixOf (c :: rest) || containsL sub rest

/-- ASCII lower-casing of one character (Python `str.lower` on the ASCII
range occurring in the feed). -/
def lowerChar (c : Char) : Char :=
  if 'A' ≤ c && c ≤ 'Z' then Char.ofNat (c.toNat + 32) else c

/-- Python `str.lower`. -/
def toLowerL (l : List Char) : List Char := l.map lowerChar

/-- Python `str.strip()`: drop whitespace from both ends. -/
def trimL (l : List Char) : List Char :=
  ((l.dropWhile Char.isWhitespace).reverse.dropWhile Char.isWhitespace).reverse

/-- Python `str.lstrip("/")`: drop leading `/` characters. -/
def lstripSlash (l : List Char) : List Char := l.dropWhile (· = '/')

/-- Python substring test `sub in s` on strings. -/
def strContains (s sub : String) : Bool := containsL sub.toList s.toList

/-- Lexicographic comparison of character lists (Python string `<=`). -/
def lexLeL : List Char → List Char → Bool
  | [], _ => true
  | _ :: _, [] => false
  | a :: as, b :: bs => if a = b then lexLeL as bs else decide (a < b)

/-- Python string comparison, as used by `sorted`. -/
def strLe (a b : String) : Bool := lexLeL a.toList b.toList

/-! ## Numeric parsing (model of `pd.to_numeric` / Python `float`) -/

/-- Digits of a decimal string folded to a natural number. -/
def natOfDigits (cs : List Char) : ℕ :=
  cs.foldl (fun a c => 10 * a + (c.toNat - 48)) 0

/-- Model of numeric-string parsing as done by `pd.to_numeric` / Python
`float` on the decimal forms occurring in the feed: optional sign, integer
digits, optional fractional digits.  Anything else is unparsable. -/
def parseRat (s : String) : Option ℚ :=
  let (neg, t) :=
    match s.toList with
    | '-' :: t => (true, t)
    | '+' :: t => (false, t)
    | t => (false, t)
  let signed : ℚ → ℚ := fun q => if neg then -q else q
  match splitOnChar '.' t with
  | [ip] =>
      if ip.isEmpty then none
      else if ip.all Char.isDigit then some (signed (natOfDigits ip : ℚ))
      else none
  | [ip, fp] =>
      if ip.isEmpty && fp.isEmpty then none
      else if ip.all Char.isDigit && fp.all Char.isDigit then
        some (signed (((natOfDigits ip * 10 ^ fp.length + natOfDigits fp : ℕ) : ℚ)
          / ((10 : ℚ) ^ fp.length)))
      else none
  | _ => none

/-- `str(x)` on a numeric cell (model of the Python float repr; the verified
properties only need that it is a digit string, never containing the letter
patterns tested by the filters). -/
def numRepr (q : ℚ) : String :=
  String.mk ((Nat.toDigits 10 q.num.natAbs) ++
    if q.den = 1 then [] else '/' :: Nat.toDigits 10 q.den)

/-- `astype(str)` on a cell: strings pass through, numbers print, NaN prints
as the literal string "nan". -/
def pyStr (c : Cell) : String :=
  match c with
  | .str v => v
  | .num q => numRepr q
  | .na => "nan"

/-- `pd.to_numeric(·, errors="coerce")` on one cell. -/
def toNumericCell (c : Cell) : Cell :=
  match c with
  | .num q => .num q
  | .na => .na
  | .str s =>
      match parseRat s with
      | some q => .num q
      | none => .na

/-- Pandas `cell == "v"` for a string literal: true only on an equal string
cell (numbers and NaN compare unequal). -/
def cellEqStr (c : Cell) (v : String) : Bool :=
  match c with
  | .str w => w = v
  | _ => false

/-- Pandas `cell > 0`: true only on a positive numeric cell (NaN compares
false). -/
def cellPos (c : Cell) : Bool :=
  match c with
  | .num q => decide (0 < q)
  | _ => false

/-- Pandas `cell == 1`: true only on the numeric cell 1. -/
def cellEqOne (c : Cell) : Bool :=
  match c with
  | .num q => decide (q = 1)
  | _ => false

/-- `fillna("").str.contains("pendant", case=False, na=False)` on one cell:
a case-insensitive substring hit on string cells; NaN is filled to `""`
(no hit) and non-string cells give NaN which `na=False` maps to false. -/
def pendantHit (c : Cell) : Bool :=
  match c with
  | .str v => strContains (String.mk (toLowerL v.toList)) "pendant"
  | _ => false

/-! ## The cleaner / filter (`process_dataframe` in both dashboards, the
filter block of `generate_report.py`) -/

/-- The in-place numeric coercions
`df["qty"] = pd.to_numeric(df["qty"], errors="coerce")` and
`df["is_in_stock"] = pd.to_numeric(df["is_in_stock"], errors="coerce")`. -/
def coerceRow (r : Row) : Row :=
  { r with qty := toNumericCell r.qty, is_in_stock := toNumericCell r.is_in_stock }

/-- The six-conjunct base filter of `process_dataframe` /
`generate_report.py` (lines 50-57 of `app.py`). -/
def basePred (r : Row) : Bool :=
  cellEqStr r.attribute_set_id "Gemstones"
    && strContains (pyStr r.sku) "GP"
    && cellPos r.qty
    && cellEqOne r.is_in_stock
    && !(pendantHit r.product_type)
    && cellPos r.price

/-- The filter block: coerce the two columns in place, then keep exactly the
rows passing `basePred` (the value of `df_gemstone` at `app.py` line 57). -/
def processFiltered (raw : List Row) : List Row :=
  (raw.map coerceRow).filter basePred

/-! ## Image URL reconstruction (`get_magento_url`) -/

def cdnBase : String := "https://imgcdn1.gempundit.com/media/catalog/product"

/-- Body of `get_magento_url` after the NaN/empty guard: last path segment
(`full_str.split('/')[-1]`), lower-case, prepend "gp" when absent
(`s.startswith("gp")`), then `len(s) >= 2` selects the two-level directory
built from `s[0]` and `s[1]` (the `headD` default is unreachable inside the
length guard). -/
def magentoCore (full : List Char) : String :=
  let filename := (splitOnChar '/' full).getLastD []
  let s0 := toLowerL filename
  let s := if ['g', 'p'].isPrefixOf s0 then s0 else 'g' :: 'p' :: s0
  if 2 ≤ s.length then
    String.mk (cdnBase.toList ++ '/' :: s.headD ' ' :: '/' :: (s.drop 1).headD ' ' :: '/' :: s)
  else String.mk (cdnBase.toList ++ '/' :: s)

/-- The normalized filename produced by steps 1-3 of the algorithm on a
non-empty input: strip, last path segment, lower-case, ensure the "gp"
brand prefix. -/
def normalizedName (raw : String) : List Char :=
  if ['g', 'p'].isPrefixOf (toLowerL ((splitOnChar '/' (trimL raw.toList)).getLastD [])) then
    toLowerL ((splitOnChar '/' (trimL raw.toList)).getLastD [])
  else 'g' :: 'p' :: toLowerL ((splitOnChar '/' (trimL raw.toList)).getLastD [])

/-- `get_magento_url` from the dashboards (`app.py` lines 71-88): missing or
empty input gives `""`; otherwise the input is whitespace-stripped
(`str(img_name).strip()`) and fed to the reconstruction algorithm. -/
def get_magento_url (img : Option String) : String :=
  match img with
  | none => ""
  | some raw => if raw = "" then "" else magentoCore (trimL raw.toList)

/-- The five-step algorithm exactly as the spec words it: last path segment,
lower-case, prefix when absent, two-level directory, empty/missing gives
`""`.  The spec's steps include no whitespace-stripping. -/
def magentoUrlSpec (img : Option String) : String :=
  match img with
  | none => ""
  | some raw => if raw = "" then "" else magentoCore raw.toList

/-- The spec's algorithm amended with the stripping the code performs: the
input is whitespace-stripped before the last path segment is taken. -/
def magentoUrlSpecTrim (img : Option String) : String :=
  match img with
  | none => ""
  | some raw =>
      if raw = "" then ""
      else
        let s := normalizedName raw
        if 2 ≤ s.length then
          String.mk (cdnBase.toList ++ '/' :: s.headD ' ' :: '/' :: (s.drop 1).headD ' ' :: '/' :: s)
        else String.mk (cdnBase.toList ++ '/' :: s)

/-! ## Cascading categorical filters (the `filter_order` loops) -/

/-- The categorical filter columns appearing in the two dashboards' fixed
priority orders. -/
inductive CatCol where
  | gemstone | shape | cut | treatment | origin | color | j_colour
  | dimension_type | product_type | certification
deriving DecidableEq, Repr

/-- Column access for a categorical filter column. -/
def Row.getCat (r : Row) : CatCol → Cell
  | .gemstone => r.gemstone
  | .shape => r.shape
  | .cut => r.cut
  | .treatment => r.treatment
  | .origin => r.origin
  | .color => r.color
  | .j_colour => r.j_colour
  | .dimension_type => r.dimension_type
  | .product_type => r.product_type
  | .certification => r.certification

/-- `fillna("None").astype(str)` on one cell (`streamlit_app.py` line 243). -/
def cellOptStr (c : Cell) : String :=
  match c with
  | .na => "None"
  | c => pyStr c

/-- Option list offered for one multiselect in `streamlit_app.py`
(lines 243-244): distinct values of the narrowed table's column, with NaN
exposed as the placeholder "None", sorted. -/
def optionsS (col : CatCol) (df : List Row) : List String :=
  List.insertionSort (fun a b => strLe a b = true)
    (df.map fun r => cellOptStr (r.getCat col)).dedup

/-- Row mask for one selected value in `streamlit_app.py` (lines 256-260):
the "None" placeholder matches NaN cells and the literal string "None";
any other value matches by string equality. -/
def catMaskS (col : CatCol) (v : String) (r : Row) : Bool :=
  if v = "None" then decide (r.getCat col = Cell.na) || cellEqStr (r.getCat col) "None"
  else cellEqStr (r.getCat col) v

/-- Applying one multiselect's selection (`streamlit_app.py` lines 249-262):
an empty selection leaves the table unchanged, a non-empty one keeps the
rows matched by any selected value. -/
def applySelS (col : CatCol) (sel : List String) (df : List Row) : List Row :=
  if sel.isEmpty then df else df.filter fun r => sel.any fun v => catMaskS col v r

/-- The cascading loop of `streamlit_app.py` (lines 239-263): selections are
applied left to right in the fixed priority order. -/
def cascadeS (sels : List (CatCol × List String)) (df : List Row) : List Row :=
  sels.foldl (fun acc p => applySelS p.1 p.2 acc) df

/-- Option list offered for one multiselect in `app.py` (line 153):
`sorted(current_df[col].dropna().unique().astype(str))`. -/
def optionsA (col : CatCol) (df : List Row) : List String :=
  List.insertionSort (fun a b => strLe a b = true)
    (((df.filterMap fun r =>
      match r.getCat col with
      | .na => none
      | c => some c).dedup).map pyStr)

/-- Applying one multiselect's selection in `app.py` (line 160):
`current_df[current_df[col_name].isin(val)]` for a non-empty selection. -/
def applySelA (col : CatCol) (sel : List String) (df : List Row) : List Row :=
  if sel.isEmpty then df else df.filter fun r => sel.any fun v => cellEqStr (r.getCat col) v

/-- The cascading loop of `app.py` (lines 150-161). -/
def cascadeA (sels : List (CatCol × List String)) (df : List Row) : List Row :=
  sels.foldl (fun acc p => applySelA p.1 p.2 acc) df

/-! ## Numeric range filter state (`update_slider` / `update_input`,
`streamlit_app.py` lines 278-298) -/

/-- The three synchronized state values one numeric filter keeps in the
session: the two numeric inputs and the slider tuple. -/
structure RangeState where
  minV : ℚ
  maxV : ℚ
  slider : ℚ × ℚ
deriving DecidableEq, Repr

/-- `update_slider`: copy the slider tuple into the two inputs. -/
def update_slider (s : RangeState) : RangeState :=
  { s with minV := s.slider.1, maxV := s.slider.2 }

/-- `update_input`: read the two inputs, clamp min to max when they cross,
and write the pair back to the slider. -/
def update_input (s : RangeState) : RangeState :=
  let nm := if s.minV > s.maxV then s.maxV else s.minV
  { minV := nm, maxV := s.maxV, slider := (nm, s.maxV) }

/-- One user interaction with a numeric filter: moving the slider, or
editing the min or the max input. -/
inductive RangeEvent where
  | sliderSet (lo hi : ℚ)
  | minSet (v : ℚ)
  | maxSet (v : ℚ)

/-- The slider widget can only produce an ordered pair. -/
def rangeEventOk : RangeEvent → Prop
  | .sliderSet lo hi => lo ≤ hi
  | _ => True

/-- Effect of one interaction: the widget writes its new value into the
session state, then its `on_change` callback runs. -/
def rangeStep (e : RangeEvent) (s : RangeState) : RangeState :=
  match e with
  | .sliderSet lo hi => update_slider { s with slider := (lo, hi) }
  | .minSet v => update_input { s with minV := v }
  | .maxSet v => update_input { s with maxV := v }

/-- The synchronization invariant: the slider tuple mirrors the two inputs
and min does not exceed max. -/
def rangeSynced (s : RangeState) : Prop :=
  s.slider = (s.minV, s.maxV) ∧ s.minV ≤ s.maxV

/-- One rerun pass of `app.py`'s sync block (lines 189-218): the keyed
number inputs return their own session values (`val_min`, `val_max`), the
slider state is `(current_min, current_max)`, and when they differ the
script writes the pair — min clamped to max — into the slider key only.
The input widget states are never written back (a keyed widget ignores its
`value=` argument once its state exists). -/
def app_sync_pass (s : RangeState) : RangeState :=
  if s.minV ≠ s.slider.1 ∨ s.maxV ≠ s.slider.2 then
    { s with slider := (if s.minV > s.maxV then s.maxV else s.minV, s.maxV) }
  else s

/-- One interaction with `app.py`'s range filter: the widget writes its new
value into its own session key, then the rerun executes the sync pass. -/
def app_range_step (e : RangeEvent) (s : RangeState) : RangeState :=
  match e with
  | .sliderSet lo hi => app_sync_pass { s with slider := (lo, hi) }
  | .minSet v => app_sync_pass { s with minV := v }
  | .maxSet v => app_sync_pass { s with maxV := v }

/-! ## Numeric range filtering and slider bounds -/

/-- The three numeric range filter columns. -/
inductive NumCol where
  | carat_weight | price | weight_ratti
deriving DecidableEq, Repr

/-- Column access for a numeric filter column. -/
def Row.getNum (r : Row) : NumCol → Cell
  | .carat_weight => r.carat_weight
  | .price => r.price
  | .weight_ratti => r.weight_ratti

/-- Pandas `cell >= m` (NaN compares false). -/
def cellGe (c : Cell) (m : ℚ) : Bool :=
  match c with
  | .num q => decide (m ≤ q)
  | _ => false

/-- Pandas `cell <= m` (NaN compares false). -/
def cellLe (c : Cell) (m : ℚ) : Bool :=
  match c with
  | .num q => decide (q ≤ m)
  | _ => false

/-- One pass of the range-filter loop
(`final_df = final_df[(final_df[col] >= sel_min) & (final_df[col] <= sel_max)]`,
`streamlit_app.py` lines 400-404). -/
def applyRange (df : List Row) (t : NumCol × ℚ × ℚ) : List Row :=
  df.filter fun r => cellGe (r.getNum t.1) t.2.1 && cellLe (r.getNum t.1) t.2.2

/-- All selected ranges applied in order to the categorically narrowed
table. -/
def rangeFilter (ranges : List (NumCol × ℚ × ℚ)) (df : List Row) : List Row :=
  ranges.foldl applyRange df

/-- The numeric values present in one column (pandas `min`/`max` skip NaN). -/
def colVals (df : List Row) (col : NumCol) : List ℚ :=
  df.filterMap fun r =>
    match r.getNum col with
    | .num q => some q
    | _ => none

def colMin (df : List Row) (col : NumCol) : Option ℚ := (colVals df col).min?

def colMax (df : List Row) (col : NumCol) : Option ℚ := (colVals df col).max?

/-- Slider bounds from `app.py` lines 174-180: the column's global min/max
over the full processed table, with the NaN fallbacks 0.0 / 1.0. -/
def sliderBounds (dfProcessed : List Row) (col : NumCol) : ℚ × ℚ :=
  ((colMin dfProcessed col).getD 0, (colMax dfProcessed col).getD 1)

/-! ## The full `process_dataframe` (post-filter column rewrites) -/

/-- `fillna("").astype(str)` on one cell. -/
def fillStr (c : Cell) : String :=
  match c with
  | .na => ""
  | c => pyStr c

/-- `df_gemstone["image"].apply(get_magento_url)` on one cell. -/
def magentoCellApply (c : Cell) : Cell :=
  match c with
  | .na => Cell.str ""
  | .str v => Cell.str (get_magento_url (some v))
  | .num q => Cell.str (get_magento_url (some (numRepr q)))

/-- The post-filter rewrites of `process_dataframe` (`app.py` lines 59-91):
numeric coercion of the three measurement columns, product-URL prefixing of
`url_key`, and image-URL reconstruction. -/
def transformRow (r : Row) : Row :=
  { r with
    carat_weight := toNumericCell r.carat_weight
    weight_ratti := toNumericCell r.weight_ratti
    price := toNumericCell r.price
    url_key := Cell.str ("https://www.gempundit.com/products/"
      ++ String.mk (lstripSlash (fillStr r.url_key).toList))
    image := magentoCellApply r.image }

/-- The value returned by `process_dataframe`. -/
def process_dataframe (raw : List Row) : List Row :=
  (processFiltered raw).map transformRow

/-- `process_dataframe` as a state transformer on its argument: the column
assignments on lines 46-47 of `app.py` mutate the caller's dataframe in
place, so the call returns both the mutated input and the result. -/
def process_dataframe_st (raw : List Row) : List Row × List Row :=
  (raw.map coerceRow, process_dataframe raw)

/-- Slider bounds as the dashboard scripts compute them: from the full
processed table (`df_processed`), not from the categorically narrowed
`current_df` — the selections argument is not consulted. -/
def dashboardBounds (raw : List Row) (sels : List (CatCol × List String))
    (col : NumCol) : ℚ × ℚ :=
  sliderBounds (process_dataframe raw) col

/-! ## Pagination (`streamlit_app.py` lines 482-553) -/

def ITEMS_PER_PAGE : ℕ := 48

/-- `total_pages = max(1, (total_items + ITEMS_PER_PAGE - 1) // ITEMS_PER_PAGE)`. -/
def totalPages (n : ℕ) : ℕ :=
  max 1 ((n + ITEMS_PER_PAGE - 1) / ITEMS_PER_PAGE)

/-- The render-pass clamp (lines 496-497): a page beyond the last valid page
is pulled back to it. -/
def clampPage (n p : ℕ) : ℕ :=
  if p > totalPages n then totalPages n else p

/-- One interaction affecting the grid page: the Next / Previous buttons,
the Apply-Filters button (which resets the page), or a filter edit while
results are shown (which only triggers a rerun and the clamp). -/
inductive PageEvent where
  | next | prev | applyFilters | filterChange

/-- One rerun: the clamp runs first, then the pressed button (whose
disabled condition makes it a no-op at the boundary). -/
def pageStep (n : ℕ) (e : PageEvent) (p : ℕ) : ℕ :=
  match e with
  | .applyFilters => 1
  | .next => let q := clampPage n p; if q = totalPages n then q else q + 1
  | .prev => let q := clampPage n p; if q = 1 then q else q - 1
  | .filterChange => clampPage n p

/-! ## Price display and sorting (`streamlit_app.py` lines 409-445) -/

/-- Round-half-to-even to an integer, as Python's `format(val, ",.0f")`
does, via integer arithmetic on the rational's numerator and denominator. -/
def roundHalfEven (q : ℚ) : ℤ :=
  let n := q.num
  let d := (q.den : ℤ)
  let fl := Int.fdiv n d
  let r := n - fl * d
  if 2 * r < d then fl
  else if d < 2 * r then fl + 1
  else if fl % 2 = 0 then fl else fl + 1

/-- Least-significant-first digit groups of three. -/
def chunk3 : List Char → List (List Char)
  | [] => []
  | [a] => [[a]]
  | [a, b] => [[a, b]]
  | a :: b :: c :: rest => [a, b, c] :: chunk3 rest

/-- Comma-grouped integer rendering, as Python's `,` format modifier. -/
def commaGroupInt (n : ℤ) : String :=
  let ds := Nat.toDigits 10 n.natAbs
  String.mk ((if n < 0 then ['-'] else []) ++ (List.intercalate [','] (chunk3 ds.reverse)).reverse)

/-- `format_price_display` (`streamlit_app.py` lines 410-416) on the numeric
price column: the sentinel 700000 renders as "Call for Price", anything
else as the ₹-prefixed comma-grouped integer. -/
def format_price_display (q : ℚ) : String :=
  if q = 700000 then "Call for Price"
  else "₹" ++ commaGroupInt (roundHalfEven q)

/-- A displayed row: the numeric price column plus the derived
`display_price` text column. -/
structure DRow where
  price : ℚ
  display : String
deriving DecidableEq, Repr

/-- `final_df.sort_values(by="price", ascending=True)`: ordering computed on
the numeric `price` column only. -/
def sortByPrice (l : List DRow) : List DRow :=
  List.insertionSort (fun a b => a.price ≤ b.price) l

/-! ## Fetching (`load_data_from_url` in the dashboards, the top-level fetch
block of `generate_report.py`) -/

/-- Outcome of the HTTP GET: a response with a status code and body, or a
transport-level failure. -/
inductive FetchOutcome where
  | ok (status : ℕ) (body : String)
  | transportError (msg : String)

/-- The dashboards' fetcher (`app.py` lines 29-42), parameterised by the CSV
parser: every failure — transport error, `raise_for_status` on a 4xx/5xx
status, or a parse error — is caught, reported as a message, and collapsed
to an empty table.  The function is total: nothing escapes as an
exception. -/
def load_data_from_url (parse : String → Except String (List Row))
    (o : FetchOutcome) : List Row × Option String :=
  match o with
  | .transportError m => ([], some ("Error loading data: " ++ m))
  | .ok status body =>
      if status < 400 then
        match parse body with
        | .ok df => (df, none)
        | .error m => ([], some ("Error loading data: " ++ m))
      else ([], some ("Error loading data: HTTP " ++ toString status))

/-- The report script's fetch block (`generate_report.py` lines 24-47):
a non-200 status raises `RuntimeError`, and transport or parse failures
propagate uncaught — modelled by the `Except.error` branch. -/
def report_fetch (parse : String → Except String (List Row))
    (o : FetchOutcome) : Except String (List Row) :=
  match o with
  | .transportError m => .error m
  | .ok status body =>
      if status = 200 then parse body
      else .error ("Failed to fetch the CSV file. Status code: " ++ toString status)

/-! ## Concrete rows for witnesses -/

/-- A row with every cell missing. -/
def naRow : Row :=
  ⟨.na, .na, .na, .na, .na, .na, .na, .na, .na, .na, .na,
   .na, .na, .na, .na, .na, .na, .na, .na, .na, .na⟩

/-- A row passing all six base-filter predicates. -/
def gemRow : Row :=
  { naRow with
    attribute_set_id := .str "Gemstones"
    sku := .str "GP123"
    qty := .num 5
    is_in_stock := .num 1
    product_type := .str "Loose"
    price := .num 100
    gemstone := .str "Ruby"
    shape := .str "Oval" }

/-! ## Helper lemmas -/

theorem cellEqStr_iff (c : Cell) (v : String) : cellEqStr c v = true ↔ c = .str v := by
  cases c <;> simp [cellEqStr]

theorem cellPos_iff (c : Cell) : cellPos c = true ↔ ∃ q, c = .num q ∧ 0 < q := by
  cases c <;> simp [cellPos]

theorem cellEqOne_iff (c : Cell) : cellEqOne c = true ↔ c = .num 1 := by
  cases c <;> simp [cellEqOne]

theorem basePred_iff (r : Row) : basePred r = true ↔
    (r.attribute_set_id = Cell.str "Gemstones"
      ∧ strContains (pyStr r.sku) "GP" = true
      ∧ (∃ q, r.qty = Cell.num q ∧ 0 < q)
      ∧ r.is_in_stock = Cell.num 1
      ∧ pendantHit r.product_type = false
      ∧ (∃ p, r.price = Cell.num p ∧ 0 < p)) := by
  simp [basePred, Bool.and_eq_true, cellEqStr_iff, cellPos_iff, cellEqOne_iff,
    Bool.not_eq_true', and_assoc]

section Scratch

example : parseRat "5" = some 5 := by decide
example : parseRat "abc" = none := by decide
example : parseRat "" = none := by decide
example : parseRat "-3" = some (-3) := by decide
example : strContains "GPX1" "GP" = true := by decide
example : strContains "X1" "GP" = false := by decide
example : get_magento_url (some "g/p/GPX1.JPG")
    = "https://imgcdn1.gempundit.com/media/catalog/product/g/p/gpx1.jpg" := by decide
example : get_magento_url (some "123.jpg")
    = "https://imgcdn1.gempundit.com/media/catalog/product/g/p/gp123.jpg" := by decide
example : get_magento_url (some "") = "" := by decide
example : get_magento_url none = "" := by decide
example : get_magento_url (some "x.jpg ") ≠ magentoUrlSpec (some "x.jpg ") := by decide

end Scratch

/-! ## Claim C1: the six-predicate filter characterization -/

/-- C1.  Every row of the filtered table produced by the cleaner's filter
block satisfies all six predicates (category "Gemstones", SKU contains
"GP", qty > 0, in-stock flag 1, no case-insensitive "pendant" in the
product type, price > 0), and every coerced raw row satisfying all six is
retained. -/
theorem filter_block_characterization :
    ∀ (raw : List Row) (r : Row),
      (r ∈ processFiltered raw →
        r.attribute_set_id = Cell.str "Gemstones"
          ∧ strContains (pyStr r.sku) "GP" = true
          ∧ (∃ q, r.qty = Cell.num q ∧ 0 < q)
          ∧ r.is_in_stock = Cell.num 1
          ∧ pendantHit r.product_type = false
          ∧ (∃ p, r.price = Cell.num p ∧ 0 < p))
      ∧ (r ∈ raw.map coerceRow →
          (r.attribute_set_id = Cell.str "Gemstones"
            ∧ strContains (pyStr r.sku) "GP" = true
            ∧ (∃ q, r.qty = Cell.num q ∧ 0 < q)
            ∧ r.is_in_stock = Cell.num 1
            ∧ pendantHit r.product_type = false
            ∧ (∃ p, r.price = Cell.num p ∧ 0 < p)) →
          r ∈ processFiltered raw) := by
  intro raw r
  constructor
  · intro h
    exact (basePred_iff r).mp (List.mem_filter.mp h).2
  · intro hm hp
    exact List.mem_filter.mpr ⟨hm, (basePred_iff r).mpr hp⟩

/-- Witness for C1 at a concrete table: the passing row is retained. -/
theorem filter_block_characterization_witness :
    gemRow ∈ processFiltered [gemRow] :=
  (filter_block_characterization [gemRow] gemRow).2 (by decide)
    ⟨rfl, by decide, ⟨5, rfl, by decide⟩, rfl, by decide, ⟨100, rfl, by decide⟩⟩

/-! ## Claim C2: the image URL reconstruction algorithm -/

/-- C2 counterexample.  The code strips surrounding whitespace before
taking the last path segment; the spec's five steps do not.  On the input
"x.jpg " (trailing blank) the two disagree, so `get_magento_url` does not
follow the five-step algorithm exactly as stated for every input string. -/
theorem magento_spec_counterexample :
    get_magento_url (some "x.jpg ") ≠ magentoUrlSpec (some "x.jpg ")
      ∧ get_magento_url (some "x.jpg ")
          = "https://imgcdn1.gempundit.com/media/catalog/product/g/p/gpx.jpg"
      ∧ magentoUrlSpec (some "x.jpg ")
          = "https://imgcdn1.gempundit.com/media/catalog/product/g/p/gpx.jpg " := by
  refine ⟨by decide, by decide, by decide⟩

/-- C2 amended.  With a whitespace-stripping step inserted before step 1,
`get_magento_url` follows the algorithm exactly for every input, and the
three examples of the claim hold: "g/p/GPX1.JPG" maps to ".../g/p/gpx1.jpg",
"123.jpg" maps to ".../g/p/gp123.jpg", and empty or missing input maps to
the empty string. -/
theorem magento_url_amended :
    (∀ img : Option String, get_magento_url img = magentoUrlSpecTrim img)
      ∧ get_magento_url (some "g/p/GPX1.JPG")
          = "https://imgcdn1.gempundit.com/media/catalog/product/g/p/gpx1.jpg"
      ∧ get_magento_url (some "123.jpg")
          = "https://imgcdn1.gempundit.com/media/catalog/product/g/p/gp123.jpg"
      ∧ get_magento_url (some "") = ""
      ∧ get_magento_url none = "" := by
  refine ⟨?_, by decide, by decide, by decide, rfl⟩
  intro img
  cases img with
  | none => rfl
  | some raw =>
      by_cases h : raw = "" <;>
        simp [get_magento_url, magentoUrlSpecTrim, h, magentoCore, normalizedName]

/-! ## Claim C10: the "gp" prefix makes the fallback branch unreachable -/

/-- C10.  For every non-missing, non-empty input, the normalized filename
starts with "gp", hence has length at least two, and the produced URL
always carries the literal two-level directory "g/p" — the fallback branch
without the directory is unreachable. -/
theorem magento_prefix_safety :
    ∀ raw : String, raw ≠ "" →
      ['g', 'p'].isPrefixOf (normalizedName raw) = true
        ∧ 2 ≤ (normalizedName raw).length
        ∧ get_magento_url (some raw)
            = String.mk (cdnBase.toList ++ '/' :: 'g' :: '/' :: 'p' :: '/' :: normalizedName raw) := by
  intro raw h
  have hpre : ∃ rest, normalizedName raw = 'g' :: 'p' :: rest := by
    unfold normalizedName
    by_cases hp : ['g', 'p'].isPrefixOf
        (toLowerL ((splitOnChar '/' (trimL raw.toList)).getLastD [])) = true
    · obtain ⟨rest, hr⟩ := List.isPrefixOf_iff_prefix.mp hp
      exact ⟨rest, by rw [if_pos hp, ← hr]; rfl⟩
    · exact ⟨_, by rw [if_neg hp]⟩
  obtain ⟨rest, hr⟩ := hpre
  have hshape : magentoCore (trimL raw.toList)
      = (if 2 ≤ (normalizedName raw).length then
          String.mk (cdnBase.toList ++ '/' :: (normalizedName raw).headD ' ' :: '/' ::
            ((normalizedName raw).drop 1).headD ' ' :: '/' :: normalizedName raw)
        else String.mk (cdnBase.toList ++ '/' :: normalizedName raw)) := rfl
  refine ⟨by rw [hr]; simp [List.isPrefixOf], by rw [hr]; simp, ?_⟩
  have hcore : magentoCore (trimL raw.toList)
      = String.mk (cdnBase.toList ++ '/' :: 'g' :: '/' :: 'p' :: '/' :: normalizedName raw) := by
    rw [hshape, hr]
    simp [List.headD]
  simpa [get_magento_url, h] using hcore

/-- Witness for C10 at the concrete input "123.jpg". -/
theorem magento_prefix_safety_witness :
    2 ≤ (normalizedName "123.jpg").length
      ∧ get_magento_url (some "123.jpg")
          = String.mk (cdnBase.toList ++ '/' :: 'g' :: '/' :: 'p' :: '/' :: normalizedName "123.jpg") :=
  ⟨(magento_prefix_safety "123.jpg" (by decide)).2.1,
   (magento_prefix_safety "123.jpg" (by decide)).2.2⟩

/-! ## Claim C3: cascading filters never expand later option sets -/

theorem applySelS_sublist (col : CatCol) (sel : List String) (df : List Row) :
    List.Sublist (applySelS col sel df) df := by
  unfold applySelS
  split
  · exact List.Sublist.refl _
  · exact List.filter_sublist _

theorem applySelS_mono {df1 df2 : List Row} (h : List.Sublist df1 df2) (col : CatCol)
    (sel : List String) : List.Sublist (applySelS col sel df1) (applySelS col sel df2) := by
  unfold applySelS
  split
  · exact h
  · exact h.filter _

theorem cascadeS_mono {df1 df2 : List Row} (h : List.Sublist df1 df2)
    (sels : List (CatCol × List String)) : List.Sublist (cascadeS sels df1) (cascadeS sels df2) := by
  induction sels generalizing df1 df2 with
  | nil => exact h
  | cons p rest ih => exact ih (applySelS_mono h p.1 p.2)

theorem cascadeS_append (a b : List (CatCol × List String)) (df : List Row) :
    cascadeS (a ++ b) df = cascadeS b (cascadeS a df) := by
  simp [cascadeS, List.foldl_append]

theorem optionsS_mono {df1 df2 : List Row} (h : List.Sublist df1 df2) (col : CatCol) :
    ∀ x ∈ optionsS col df1, x ∈ optionsS col df2 := by
  intro x hx
  rw [optionsS, (List.perm_insertionSort _ _).mem_iff, List.mem_dedup] at hx ⊢
  obtain ⟨r, hr, hv⟩ := List.mem_map.mp hx
  exact List.mem_map.mpr ⟨r, h.subset hr, hv⟩

theorem applySelA_sublist (col : CatCol) (sel : List String) (df : List Row) :
    List.Sublist (applySelA col sel df) df := by
  unfold applySelA
  split
  · exact List.Sublist.refl _
  · exact List.filter_sublist _

theorem applySelA_mono {df1 df2 : List Row} (h : List.Sublist df1 df2) (col : CatCol)
    (sel : List String) : List.Sublist (applySelA col sel df1) (applySelA col sel df2) := by
  unfold applySelA
  split
  · exact h
  · exact h.filter _

theorem cascadeA_mono {df1 df2 : List Row} (h : List.Sublist df1 df2)
    (sels : List (CatCol × List String)) : List.Sublist (cascadeA sels df1) (cascadeA sels df2) := by
  induction sels generalizing df1 df2 with
  | nil => exact h
  | cons p rest ih => exact ih (applySelA_mono h p.1 p.2)

theorem cascadeA_append (a b : List (CatCol × List String)) (df : List Row) :
    cascadeA (a ++ b) df = cascadeA b (cascadeA a df) := by
  simp [cascadeA, List.foldl_append]

theorem optionsA_mono {df1 df2 : List Row} (h : List.Sublist df1 df2) (col : CatCol) :
    ∀ x ∈ optionsA col df1, x ∈ optionsA col df2 := by
  intro x hx
  rw [optionsA, (List.perm_insertionSort _ _).mem_iff] at hx ⊢
  obtain ⟨c, hc, hv⟩ := List.mem_map.mp hx
  rw [List.mem_dedup] at hc
  obtain ⟨r, hr, hcell⟩ := List.mem_filterMap.mp hc
  exact List.mem_map.mpr ⟨c, List.mem_dedup.mpr
    (List.mem_filterMap.mpr ⟨r, h.subset hr, hcell⟩), hv⟩

/-- C3.  In both dashboards' cascading loops: take any position in the
priority order, any non-empty selection there, and any later filter column.
The option set offered for the later filter with that selection applied is
a subset of the option set offered with that selection empty — selecting
values never expands a later filter's options. -/
theorem cascade_options_subset :
    ∀ (df : List Row) (pre suf : List (CatCol × List String)) (c : CatCol)
      (sel : List String) (col : CatCol), sel ≠ [] →
      (∀ x ∈ optionsS col (cascadeS (pre ++ (c, sel) :: suf) df),
        x ∈ optionsS col (cascadeS (pre ++ (c, []) :: suf) df))
      ∧ (∀ x ∈ optionsA col (cascadeA (pre ++ (c, sel) :: suf) df),
        x ∈ optionsA col (cascadeA (pre ++ (c, []) :: suf) df)) := by
  intro df pre suf c sel col _
  have e1 : ∀ x : CatCol × List String,
      cascadeS (pre ++ x :: suf) df = cascadeS suf (applySelS x.1 x.2 (cascadeS pre df)) := by
    intro x
    rw [show x :: suf = [x] ++ suf from rfl, ← List.append_assoc, cascadeS_append,
      cascadeS_append]
    rfl
  have e2 : ∀ x : CatCol × List String,
      cascadeA (pre ++ x :: suf) df = cascadeA suf (applySelA x.1 x.2 (cascadeA pre df)) := by
    intro x
    rw [show x :: suf = [x] ++ suf from rfl, ← List.append_assoc, cascadeA_append,
      cascadeA_append]
    rfl
  constructor
  · have h1 : List.Sublist (cascadeS (pre ++ (c, sel) :: suf) df)
        (cascadeS (pre ++ (c, []) :: suf) df) := by
      rw [e1 (c, sel), e1 (c, [])]
      refine cascadeS_mono ?_ suf
      rw [show applySelS c [] (cascadeS pre df) = cascadeS pre df from rfl]
      exact applySelS_sublist c sel _
    exact optionsS_mono h1 col
  · have h1 : List.Sublist (cascadeA (pre ++ (c, sel) :: suf) df)
        (cascadeA (pre ++ (c, []) :: suf) df) := by
      rw [e2 (c, sel), e2 (c, [])]
      refine cascadeA_mono ?_ suf
      rw [show applySelA c [] (cascadeA pre df) = cascadeA pre df from rfl]
      exact applySelA_sublist c sel _
    exact optionsA_mono h1 col

/-- Witness for C3 at a concrete table: the shape option "Oval" offered
after selecting gemstone "Ruby" is among the options offered with the
gemstone selection empty. -/
theorem cascade_options_subset_witness :
    "Oval" ∈ optionsS CatCol.shape
      (cascadeS ([] ++ (CatCol.gemstone, ([] : List String)) :: []) [gemRow]) :=
  (cascade_options_subset [gemRow] [] [] CatCol.gemstone ["Ruby"] CatCol.shape
    (by decide)).1 "Oval" (by decide)

/-! ## Claim C4: numeric range state synchronization -/

/-- C4 counterexample.  In `app.py`'s range filter, setting the max input
to 30 with the min input at 50 (slider at (50, 100)) writes the clamped
pair (30, 30) into the slider key only: the min-input widget keeps its
stale value 50, so the three state values are not mutually synchronized
and the input pair violates min ≤ max — min is not clamped to the new
max in the min-input state. -/
theorem app_range_sync_counterexample :
    (app_range_step (.maxSet 30) ⟨50, 100, (50, 100)⟩).minV = 50
      ∧ (app_range_step (.maxSet 30) ⟨50, 100, (50, 100)⟩).maxV = 30
      ∧ (app_range_step (.maxSet 30) ⟨50, 100, (50, 100)⟩).slider = (30, 30)
      ∧ ¬ rangeSynced (app_range_step (.maxSet 30) ⟨50, 100, (50, 100)⟩) := by
  refine ⟨by decide, by decide, by decide, ?_⟩
  intro hsync
  exact absurd hsync.1 (by decide)

/-- C4 amended.  In `streamlit_app.py`'s callback mechanism, after any
single update the three state values are mutually synchronized and
min ≤ max holds, with a max input below the current min clamping min to
the new max.  In `app.py` the synchronization is one-directional: an
interaction leaves the slider pair ordered (lo ≤ hi), and setting the max
input strictly below the current min writes the clamped pair
(new max, new max) to the slider — but the clamped min is never written
back to the min-input widget, which keeps its stale value. -/
theorem range_sync_amended :
    (∀ (s : RangeState) (e : RangeEvent), rangeEventOk e → rangeSynced (rangeStep e s))
      ∧ (∀ (s : RangeState) (v : ℚ), v < s.minV → (rangeStep (.maxSet v) s).minV = v)
      ∧ (∀ (s : RangeState) (e : RangeEvent), rangeEventOk e →
          s.slider.1 ≤ s.slider.2 →
          (app_range_step e s).slider.1 ≤ (app_range_step e s).slider.2)
      ∧ (∀ (s : RangeState) (v : ℚ), s.slider.1 ≤ s.slider.2 → v < s.minV →
          (app_range_step (.maxSet v) s).slider = (v, v)
            ∧ (app_range_step (.maxSet v) s).minV = s.minV
            ∧ (app_range_step (.maxSet v) s).maxV = v) := by
  refine ⟨?_, ?_, ?_, ?_⟩
  · intro s e hok
    cases e with
    | sliderSet lo hi =>
        exact ⟨rfl, hok⟩
    | minSet v =>
        refine ⟨rfl, ?_⟩
        simp only [rangeStep, update_input]
        split
        · exact le_refl _
        · next hgt => exact le_of_not_lt hgt
    | maxSet v =>
        refine ⟨rfl, ?_⟩
        simp only [rangeStep, update_input]
        split
        · exact le_refl _
        · next hgt => exact le_of_not_lt hgt
  · intro s v hv
    simp only [rangeStep, update_input]
    rw [if_pos hv]
  · intro s e hok hinv
    cases e with
    | sliderSet lo hi =>
        simp only [app_range_step, app_sync_pass]
        split
        · split
          · exact le_refl _
          · next hgt => exact le_of_not_lt hgt
        · exact hok
    | minSet v =>
        simp only [app_range_step, app_sync_pass]
        split
        · split
          · exact le_refl _
          · next hgt => exact le_of_not_lt hgt
        · exact hinv
    | maxSet v =>
        simp only [app_range_step, app_sync_pass]
        split
        · split
          · exact le_refl _
          · next hgt => exact le_of_not_lt hgt
        · exact hinv
  · intro s v hinv hv
    have hcond : s.minV ≠ s.slider.1 ∨ v ≠ s.slider.2 := by
      by_contra hc
      push_neg at hc
      rw [← hc.1, ← hc.2] at hinv
      exact absurd hv (not_lt.mpr hinv)
    simp only [app_range_step, app_sync_pass]
    split
    · exact ⟨rfl, rfl, rfl⟩
    · next hnc => exact absurd hcond hnc

/-- Witness for C4's amended clauses with hypotheses, at concrete states:
the streamlit variant clamps min to the new max 2 in a synchronized state,
while the app variant writes (30, 30) to the slider only. -/
theorem range_sync_amended_witness :
    rangeSynced (rangeStep (.maxSet 2) ⟨5, 10, (5, 10)⟩)
      ∧ (rangeStep (.maxSet 2) ⟨5, 10, (5, 10)⟩).minV = 2
      ∧ (app_range_step (.maxSet 30) ⟨50, 100, (50, 100)⟩).slider = (30, 30) :=
  ⟨range_sync_amended.1 ⟨5, 10, (5, 10)⟩ (.maxSet 2) trivial,
   range_sync_amended.2.1 ⟨5, 10, (5, 10)⟩ 2 (by decide),
   (range_sync_amended.2.2.2 ⟨50, 100, (50, 100)⟩ 30 (by decide) (by decide)).1⟩

/-! ## Claim C5: grid pagination -/

/-- C5 counterexample.  The code computes
`total_pages = max(1, ceil(n / 48))`, not `ceil(n / 48)`: at a result count
of 0 the code yields 1 page while the claimed formula yields 0.  Moreover a
filter edit while results are shown (a rerun without the Apply button) only
clamps the page — with 100 results and current page 2 the page stays 2, it
is not reset to 1 although the active filter set changed. -/
theorem pagination_counterexample :
    totalPages 0 ≠ (0 + ITEMS_PER_PAGE - 1) / ITEMS_PER_PAGE
      ∧ pageStep 100 PageEvent.filterChange 2 ≠ 1 := by
  refine ⟨by decide, by decide⟩

/-- C5 amended.  `total_pages = max(1, ceil(n/48))` (equal to `ceil(n/48)`
for non-empty result sets); after any interaction the page stays in
`[1, total_pages]`; Next on the last page and Previous on page 1 are
no-ops; the Apply-Filters action resets the page to 1; and 100 items give
3 pages. -/
theorem pagination_amended :
    (∀ n : ℕ, totalPages n = max 1 ((n + ITEMS_PER_PAGE - 1) / ITEMS_PER_PAGE))
      ∧ (∀ n : ℕ, 0 < n → totalPages n = (n + ITEMS_PER_PAGE - 1) / ITEMS_PER_PAGE)
      ∧ (∀ (n p : ℕ) (e : PageEvent), 1 ≤ p →
          1 ≤ pageStep n e p ∧ pageStep n e p ≤ totalPages n)
      ∧ (∀ n : ℕ, pageStep n PageEvent.next (totalPages n) = totalPages n)
      ∧ (∀ n : ℕ, pageStep n PageEvent.prev 1 = 1)
      ∧ (∀ n p : ℕ, pageStep n PageEvent.applyFilters p = 1)
      ∧ totalPages 100 = 3 := by
  have h1 : ∀ n : ℕ, 1 ≤ totalPages n := fun n => Nat.le_max_left _ _
  refine ⟨fun n => rfl, ?_, ?_, ?_, ?_, fun n p => rfl, by decide⟩
  · intro n hn
    simp only [totalPages, ITEMS_PER_PAGE]
    omega
  · intro n p e hp
    have := h1 n
    cases e with
    | applyFilters => exact ⟨le_refl 1, h1 n⟩
    | next =>
        simp only [pageStep, clampPage]
        split_ifs <;> omega
    | prev =>
        simp only [pageStep, clampPage]
        split_ifs <;> omega
    | filterChange =>
        simp only [pageStep, clampPage]
        split_ifs <;> omega
  · intro n
    have := h1 n
    simp only [pageStep, clampPage]
    split_ifs <;> omega
  · intro n
    have := h1 n
    simp only [pageStep, clampPage]
    split_ifs <;> omega

/-- Witness for C5's amended clauses with hypotheses, at concrete inputs. -/
theorem pagination_amended_witness :
    totalPages 10 = (10 + ITEMS_PER_PAGE - 1) / ITEMS_PER_PAGE
      ∧ (1 ≤ pageStep 100 PageEvent.next 2 ∧ pageStep 100 PageEvent.next 2 ≤ totalPages 100) :=
  ⟨pagination_amended.2.1 10 (by decide),
   pagination_amended.2.2.1 100 2 PageEvent.next (by decide)⟩

/-! ## Claim C6: price display and numeric sorting -/

instance : IsTotal DRow (fun a b => a.price ≤ b.price) :=
  ⟨fun a b => le_total a.price b.price⟩

instance : IsTrans DRow (fun a b => a.price ≤ b.price) :=
  ⟨fun _ _ _ hab hbc => le_trans hab hbc⟩

/-- C6.  The sentinel price 700000 renders as "Call for Price"; every other
positive price renders as the ₹-prefixed comma-grouped rounded integer
(with two concrete instances showing the grouping); and sorting by price
is computed on the numeric price column alone — it permutes the rows into
non-decreasing numeric price order, and rewriting the displayed text in
every row cannot change the resulting price order. -/
theorem price_display_sort :
    format_price_display 700000 = "Call for Price"
      ∧ (∀ q : ℚ, 0 < q → q ≠ 700000 →
          format_price_display q = "₹" ++ commaGroupInt (roundHalfEven q))
      ∧ format_price_display 1234 = "₹1,234"
      ∧ format_price_display 123456 = "₹123,456"
      ∧ (∀ l : List DRow, List.Perm (sortByPrice l) l
          ∧ ((sortByPrice l).map DRow.price).Pairwise (· ≤ ·))
      ∧ (∀ (l : List DRow) (f : DRow → String),
          (sortByPrice (l.map fun r => DRow.mk r.price (f r))).map DRow.price
            = (sortByPrice l).map DRow.price) := by
  refine ⟨by decide, ?_, by decide, by decide, ?_, ?_⟩
  · intro q h0 hne
    simp [format_price_display, hne]
  · intro l
    exact ⟨List.perm_insertionSort _ l,
      List.pairwise_map.mpr (List.sorted_insertionSort _ l)⟩
  · intro l f
    have hs1 : ((sortByPrice (l.map fun r => DRow.mk r.price (f r))).map DRow.price).Pairwise
        (· ≤ ·) := List.pairwise_map.mpr (List.sorted_insertionSort _ _)
    have hs2 : ((sortByPrice l).map DRow.price).Pairwise (· ≤ ·) :=
      List.pairwise_map.mpr (List.sorted_insertionSort _ _)
    have hp : List.Perm ((sortByPrice (l.map fun r => DRow.mk r.price (f r))).map DRow.price)
        ((sortByPrice l).map DRow.price) := by
      refine ((List.perm_insertionSort _ _).map DRow.price).trans ?_
      refine List.Perm.trans ?_ ((List.perm_insertionSort _ l).map DRow.price).symm
      rw [List.map_map]
      exact List.Perm.refl _
    exact List.eq_of_perm_of_sorted hp hs1 hs2

/-- Witness for C6's clauses with hypotheses, at concrete inputs. -/
theorem price_display_sort_witness :
    format_price_display 250 = "₹" ++ commaGroupInt (roundHalfEven 250)
      ∧ List.Perm (sortByPrice [DRow.mk 2 "b", DRow.mk 1 "a"]) [DRow.mk 2 "b", DRow.mk 1 "a"] :=
  ⟨price_display_sort.2.1 250 (by decide) (by decide),
   (price_display_sort.2.2.2.2.1 [DRow.mk 2 "b", DRow.mk 1 "a"]).1⟩

/-! ## Claim C7: global slider bounds and inclusive range intersection -/

theorem cellRange_iff (c : Cell) (mn mx : ℚ) :
    (cellGe c mn && cellLe c mx) = true ↔ ∃ v, c = Cell.num v ∧ mn ≤ v ∧ v ≤ mx := by
  cases c <;> simp [cellGe, cellLe]

theorem rangeFilter_eq_filter (ranges : List (NumCol × ℚ × ℚ)) (current : List Row) :
    rangeFilter ranges current = current.filter fun r =>
      ranges.all fun t => cellGe (r.getNum t.1) t.2.1 && cellLe (r.getNum t.1) t.2.2 := by
  induction ranges generalizing current with
  | nil => simp [rangeFilter]
  | cons t ts ih =>
      rw [show rangeFilter (t :: ts) current = rangeFilter ts (applyRange current t) from rfl,
        ih, applyRange, List.filter_filter]
      refine List.filter_congr fun r _ => ?_
      simp [Bool.and_comm]

/-- C7.  The slider bounds the dashboards offer are computed from the full
processed table — they do not depend on the categorical selections — and
equal the global column min/max of `df_processed` (with the NaN fallbacks);
and membership in the final displayed table is exactly membership in the
categorically narrowed table intersected with every numeric range
predicate with inclusive bounds. -/
theorem range_bounds_and_intersection :
    (∀ (raw : List Row) (sels sels' : List (CatCol × List String)) (col : NumCol),
      dashboardBounds raw sels col = dashboardBounds raw sels' col)
      ∧ (∀ (raw : List Row) (sels : List (CatCol × List String)) (col : NumCol),
          dashboardBounds raw sels col = sliderBounds (process_dataframe raw) col)
      ∧ (∀ (ranges : List (NumCol × ℚ × ℚ)) (current : List Row) (r : Row),
          r ∈ rangeFilter ranges current ↔ r ∈ current ∧
            ∀ t ∈ ranges, ∃ v, r.getNum t.1 = Cell.num v ∧ t.2.1 ≤ v ∧ v ≤ t.2.2) := by
  refine ⟨fun raw sels sels' col => rfl, fun raw sels col => rfl, ?_⟩
  intro ranges current r
  rw [rangeFilter_eq_filter, List.mem_filter, List.all_eq_true]
  constructor
  · rintro ⟨hm, hall⟩
    exact ⟨hm, fun t ht => (cellRange_iff _ _ _).mp (hall t ht)⟩
  · rintro ⟨hm, hall⟩
    exact ⟨hm, fun t ht => (cellRange_iff _ _ _).mpr (hall t ht)⟩

/-- Witness for C7's intersection characterization at a concrete table. -/
theorem range_bounds_and_intersection_witness :
    gemRow ∈ rangeFilter [(NumCol.price, 50, 150)] [gemRow] :=
  (range_bounds_and_intersection.2.2 [(NumCol.price, 50, 150)] [gemRow] gemRow).mpr
    ⟨by decide, by
      intro t ht
      rw [List.mem_singleton] at ht
      subst ht
      exact ⟨100, rfl, by decide, by decide⟩⟩

/-! ## Claim C8: fetch error handling -/

/-- C8 counterexample.  The report script's fetch block does not collapse a
non-2xx response to an empty result: it raises `RuntimeError` (the
`Except.error` branch of the model) — here concretely for a 404. -/
theorem fetch_counterexample :
    report_fetch (fun _ => Except.ok []) (.ok 404 "")
      = Except.error "Failed to fetch the CSV file. Status code: 404" := by
  rfl

/-- C8 amended.  The dashboards' fetcher is total and collapses every
failure — transport error, 4xx/5xx status, or parse failure — to an empty
table plus a user-visible message, returning the parsed table with no
message on success; the standalone report script instead raises an
exception on every non-200 status. -/
theorem fetch_amended :
    (∀ (parse : String → Except String (List Row)) (o : FetchOutcome),
      (load_data_from_url parse o).2.isSome = true → (load_data_from_url parse o).1 = [])
      ∧ (∀ (parse : String → Except String (List Row)) (m : String),
          (load_data_from_url parse (.transportError m)).2.isSome = true)
      ∧ (∀ (parse : String → Except String (List Row)) (status : ℕ) (body : String),
          400 ≤ status → (load_data_from_url parse (.ok status body)).2.isSome = true)
      ∧ (∀ (parse : String → Except String (List Row)) (status : ℕ) (body m : String),
          parse body = .error m → (load_data_from_url parse (.ok status body)).2.isSome = true)
      ∧ (∀ (parse : String → Except String (List Row)) (status : ℕ) (body : String)
          (df : List Row), status < 400 → parse body = .ok df →
          load_data_from_url parse (.ok status body) = (df, none))
      ∧ (∀ (parse : String → Except String (List Row)) (status : ℕ) (body : String),
          status ≠ 200 → ∃ m, report_fetch parse (.ok status body) = .error m) := by
  refine ⟨?_, fun parse m => rfl, ?_, ?_, ?_, ?_⟩
  · intro parse o h
    cases o with
    | transportError m => rfl
    | ok status body =>
        by_cases hst : status < 400
        · cases hp : parse body with
          | ok df => simp [load_data_from_url, hst, hp] at h
          | error m => simp [load_data_from_url, hst, hp]
        · simp [load_data_from_url, hst]
  · intro parse status body hst
    have : ¬ status < 400 := by omega
    simp [load_data_from_url, this]
  · intro parse status body m hp
    by_cases hst : status < 400 <;> simp [load_data_from_url, hst, hp]
  · intro parse status body df hst hp
    simp [load_data_from_url, hst, hp]
  · intro parse status body h
    exact ⟨"Failed to fetch the CSV file. Status code: " ++ toString status,
      by simp [report_fetch, h]⟩

/-- Witness for C8's amended clauses with hypotheses, at concrete inputs. -/
theorem fetch_amended_witness :
    (load_data_from_url (fun _ => Except.ok []) (.ok 500 "x")).2.isSome = true
      ∧ load_data_from_url (fun _ => Except.ok [gemRow]) (.ok 200 "y") = ([gemRow], none)
      ∧ ∃ m, report_fetch (fun _ => Except.ok []) (.ok 404 "") = Except.error m :=
  ⟨fetch_amended.2.2.1 _ 500 "x" (by decide),
   fetch_amended.2.2.2.2.1 _ 200 "y" [gemRow] (by decide) rfl,
   fetch_amended.2.2.2.2.2 _ 404 "" (by decide)⟩

/-! ## Claim C9: the derivation mutates the raw table's qty / stock columns -/

/-- C9 counterexample.  Running the derivation mutates the raw table: the
column assignments coerce `qty` in place, so a raw row whose `qty` cell is
the string "5" is changed (to the number 5) in the caller's table. -/
theorem process_mutation_counterexample :
    (process_dataframe_st [{ naRow with qty := Cell.str "5" }]).1
      ≠ [{ naRow with qty := Cell.str "5" }] := by
  decide

/-- C9 amended.  The derivation is a pure function of the raw table value,
and its only effect on the raw table is replacing the `qty` and
`is_in_stock` columns by their numeric coercions: the row count and every
other column are left unchanged, and the returned filtered table is the
derived value. -/
theorem process_frame_amended :
    ∀ raw : List Row,
      (process_dataframe_st raw).1 = raw.map coerceRow
        ∧ (process_dataframe_st raw).1.length = raw.length
        ∧ (∀ r : Row,
            (coerceRow r).attribute_set_id = r.attribute_set_id
              ∧ (coerceRow r).sku = r.sku
              ∧ (coerceRow r).name = r.name
              ∧ (coerceRow r).product_type = r.product_type
              ∧ (coerceRow r).price = r.price
              ∧ (coerceRow r).carat_weight = r.carat_weight
              ∧ (coerceRow r).weight_ratti = r.weight_ratti
              ∧ (coerceRow r).gemstone = r.gemstone
              ∧ (coerceRow r).gemstone2 = r.gemstone2
              ∧ (coerceRow r).shape = r.shape
              ∧ (coerceRow r).cut = r.cut
              ∧ (coerceRow r).treatment = r.treatment
              ∧ (coerceRow r).origin = r.origin
              ∧ (coerceRow r).color = r.color
              ∧ (coerceRow r).j_colour = r.j_colour
              ∧ (coerceRow r).dimension_type = r.dimension_type
              ∧ (coerceRow r).certification = r.certification
              ∧ (coerceRow r).url_key = r.url_key
              ∧ (coerceRow r).image = r.image)
        ∧ (process_dataframe_st raw).2 = process_dataframe raw := by
  intro raw
  refine ⟨rfl, by simp [process_dataframe_st], fun r => ?_, rfl⟩
  exact ⟨rfl, rfl, rfl, rfl, rfl, rfl, rfl, rfl, rfl, rfl, rfl, rfl, rfl, rfl, rfl, rfl,
    rfl, rfl, rfl⟩
